import Mathlib

/-!
Shallow embedding of the governance layer of the `delang-zeta` AI functions
(`src/functions/ai/middleware.py`, `src/functions/ai/results_processor.py`,
`src/functions/ai/config.py`): authentication, dual-window rate limiting,
daily cost budgeting, the circuit breaker around results processing, and the
audit events each path emits.

Modelling conventions:
- Python `TTLCache` instances are modelled as total functions from string
  keys to `Option` values (TTL expiry is outside the claims considered here).
- Clock reads (`time.time()`, `time.strftime`) are passed as explicit
  parameters; epoch seconds are `Nat` in the rate limiter (integer-truncated
  in the source) and `ℚ` in the circuit breaker (float seconds).
- Monetary costs are `ℚ` (the source uses Python floats; the claims are about
  the exact accumulate-and-compare logic).
- Each middleware function returns, besides its result and updated state, the
  list of `AuditLog` records it passes to `log_audit_event`.
-/

namespace DelangZeta

/-- Audit record, from `middleware.AuditLog` (`user_id` is `Option` because
the source can store Python `None` from `decoded.get('userId')`; the
free-form `metadata` dict is omitted — no claim mentions its contents). -/
structure AuditLog where
  user_id : Option String
  action : String
  endpoint : String
  timestamp : String
  request_id : String
  success : Bool
  error : Option String
deriving Repr, DecidableEq

/-- Entry of `rate_limit_cache`, from `middleware.RateLimitInfo`. -/
structure RateLimitInfo where
  user_id : String
  endpoint : String
  request_count : Nat
  window_start : Nat
  limit : Nat
deriving Repr, DecidableEq

/-- Entry of `cost_cache`, from `middleware.CostMonitoring`. -/
structure CostMonitoring where
  user_id : String
  service : String
  cost : ℚ
  request_count : Nat
  timestamp : Nat
deriving Repr, DecidableEq

/-- Per-service limits, from `config.AI_CONFIG['RATE_LIMITS'][service]`. -/
structure ServiceConfig where
  REQUESTS_PER_MINUTE : Nat
  REQUESTS_PER_HOUR : Nat
  COST_LIMIT_PER_DAY : ℚ
deriving Repr, DecidableEq

/-- `config.AI_CONFIG['RATE_LIMITS']`: the configured services; `none` models
the `KeyError` raised for an unknown service name. -/
def RATE_LIMITS (service : String) : Option ServiceConfig :=
  if service = "GEMINI" then some ⟨60, 1000, 100⟩
  else if service = "TRANSLATE" then some ⟨100, 2000, 50⟩
  else if service = "SPEECH" then some ⟨30, 500, 75⟩
  else none

/-- The `rate_limit_cache` contents (string key → entry). -/
structure RateState where
  cache : String → Option RateLimitInfo

def emptyRateState : RateState := ⟨fun _ => none⟩

/-- Key `f"{user_id}:{service}:{window_start}"` with
`window_start = (now // 60) * 60`. -/
def minuteKey (uid service : String) (now : Nat) : String :=
  uid ++ ":" ++ service ++ ":" ++ Nat.repr (now / 60 * 60)

/-- Key `f"{user_id}:{service}:hourly:{hourly_window}"` with
`hourly_window = (now // 3600) * 3600`. -/
def hourlyKey (uid service : String) (now : Nat) : String :=
  uid ++ ":" ++ service ++ ":hourly:" ++ Nat.repr (now / 3600 * 3600)

/-- Decision of the `rate_limiter` decorator, with the HTTP response each
constructor stands for. -/
inductive RateDecision where
  /-- `401 {'error': 'Authentication required for rate limiting'}` -/
  | noAuth
  /-- `429 {'error': 'Rate limit exceeded', 'retryAfter': r}` -/
  | rejectMinute (retryAfter : Nat)
  /-- `429 {'error': 'Hourly rate limit exceeded', 'retryAfter': r}` -/
  | rejectHour (retryAfter : Nat)
  /-- the wrapped handler `f` is invoked -/
  | admitted
  /-- `500 {'error': 'Service configuration error'}` (unknown service) -/
  | configError
deriving Repr, DecidableEq

structure RateResult where
  decision : RateDecision
  state : RateState
  audits : List AuditLog

/-- Truthiness test `entry and entry.request_count >= lim` of the source. -/
def exceeds (entry : Option RateLimitInfo) (lim : Nat) : Bool :=
  match entry with
  | some info => lim ≤ info.request_count
  | none => false

/-- `entry.request_count + 1 if entry else 1` is `entryCount entry + 1`. -/
def entryCount (entry : Option RateLimitInfo) : Nat :=
  match entry with
  | some info => info.request_count
  | none => 0

/-- Local outcome of the read-and-compare half of `rate_limiter`
(source lines 140–157): either a final decision, or the pair of counter
values the write half will store. -/
inductive RLPhase where
  | finished (d : RateDecision)
  | willWrite (minute_count hourly_count : Nat)
deriving Repr, DecidableEq

/-- Read-and-compare half of `rate_limiter` (lines 140–157): read the two
window entries, reject if either is at its limit, else compute the
incremented counts. -/
def rl_check (service uid : String) (now : Nat) (cfg : ServiceConfig)
    (st : RateState) : RLPhase :=
  let minute_limit := st.cache (minuteKey uid service now)
  if exceeds minute_limit cfg.REQUESTS_PER_MINUTE then
    .finished (.rejectMinute (60 - (now - now / 60 * 60)))
  else
    let hourly_limit := st.cache (hourlyKey uid service now)
    if exceeds hourly_limit cfg.REQUESTS_PER_HOUR then
      .finished (.rejectHour (3600 - (now - now / 3600 * 3600)))
    else
      .willWrite (entryCount minute_limit + 1) (entryCount hourly_limit + 1)

/-- Write half of `rate_limiter` (lines 159–173): store both window entries.
The source stores the minute entry first, then the hourly entry, so the
hourly write is the outer update. -/
def rl_write (service uid endpoint : String) (now : Nat) (cfg : ServiceConfig)
    (minute_count hourly_count : Nat) (st : RateState) : RateState :=
  ⟨fun k =>
    if k = hourlyKey uid service now then
      some ⟨uid, endpoint, hourly_count, now / 3600 * 3600, cfg.REQUESTS_PER_HOUR⟩
    else if k = minuteKey uid service now then
      some ⟨uid, endpoint, minute_count, now / 60 * 60, cfg.REQUESTS_PER_MINUTE⟩
    else st.cache k⟩

/-- The `rate_limiter(service)` decorator body (`middleware.py` lines
119–185): require an authenticated `user_id`, look up the service limits
(`KeyError` → configuration error), then check-then-increment both windows.
The source calls `log_audit_event` nowhere in this function, so every path
returns an empty audit list. -/
def rate_limiter (service : String) (user_id : Option String)
    (endpoint : String) (now : Nat) (st : RateState) : RateResult :=
  match user_id with
  | none => ⟨.noAuth, st, []⟩
  | some uid =>
    match RATE_LIMITS service with
    | none => ⟨.configError, st, []⟩
    | some cfg =>
      match rl_check service uid now cfg st with
      | .finished d => ⟨d, st, []⟩
      | .willWrite mc hc => ⟨.admitted, rl_write service uid endpoint now cfg mc hc st, []⟩

/-- `k` sequential calls to `rate_limiter` for the same user, service and
second, returning the final cache state. -/
def rateRun (service uid endpoint : String) (now : Nat) :
    Nat → RateState → RateState
  | 0, st => st
  | k + 1, st =>
    (rate_limiter service (some uid) endpoint now
      (rateRun service uid endpoint now k st)).state

/-! ## Cost governor (`middleware.check_cost_limits`, lines 187–216) -/

/-- The `cost_cache` contents (string key → entry). -/
structure CostState where
  cache : String → Option CostMonitoring

/-- Key `f"{user_id}:{service}:{today}"` (`today = time.strftime('%Y-%m-%d')`
is passed in as the calendar-day string). -/
def costKey (uid service today : String) : String :=
  uid ++ ":" ++ service ++ ":" ++ today

/-- `daily_cost.cost if daily_cost else 0.0`. -/
def costOf (entry : Option CostMonitoring) : ℚ :=
  match entry with
  | some d => d.cost
  | none => 0

/-- `daily_cost.request_count` with absent entry counting as 0, so that
`(daily_cost.request_count + 1) if daily_cost else 1` is `costCount e + 1`. -/
def costCount (entry : Option CostMonitoring) : Nat :=
  match entry with
  | some d => d.request_count
  | none => 0

structure CostResult where
  allowed : Bool
  state : CostState
  audits : List AuditLog

/-- `check_cost_limits(user_id, service, estimated_cost)`: look up today's
ledger entry, reject (return `false`) when the accumulated cost plus the
estimate exceeds the daily cap, otherwise write the accumulated entry back
and admit. An unknown service raises `KeyError`, which the blanket handler
turns into `True` (fail open). The source calls `log_audit_event` nowhere
here, so the audit list is always empty. -/
def check_cost_limits (uid service today : String) (estimated_cost : ℚ)
    (now : Nat) (st : CostState) : CostResult :=
  let cost_key := costKey uid service today
  match RATE_LIMITS service with
  | none => ⟨true, st, []⟩
  | some cfg =>
    let daily_cost := st.cache cost_key
    let current_cost := costOf daily_cost
    if cfg.COST_LIMIT_PER_DAY < current_cost + estimated_cost then
      ⟨false, st, []⟩
    else
      let new_cost := current_cost + estimated_cost
      let new_count := costCount daily_cost + 1
      ⟨true,
        ⟨fun k => if k = cost_key then
            some ⟨uid, service, new_cost, new_count, now⟩
          else st.cache k⟩,
        []⟩

/-- Sequential calls to `check_cost_limits` for one `(user, service, day)`,
one call per listed estimated cost; returns the list of decisions and the
final cache state. -/
def costRun (uid service today : String) (now : Nat) :
    List ℚ → CostState → List Bool × CostState
  | [], st => ([], st)
  | c :: cs, st =>
    let r := check_cost_limits uid service today c now st
    let rest := costRun uid service today now cs r.state
    (r.allowed :: rest.1, rest.2)

/-- Modelled from the spec: the Cost Governor acceptance sequence of §8 —
given cap `C` and already-admitted total `acc`, admission of `c` fails iff
`acc + c > C`, and admitted costs accumulate. Used only as the
specification side of the refinement proof for the source's
`check_cost_limits`. -/
def costGovernorSpec (C : ℚ) : ℚ → List ℚ → List Bool
  | _, [] => []
  | acc, c :: cs =>
    if C < acc + c then false :: costGovernorSpec C acc cs
    else true :: costGovernorSpec C (acc + c) cs

/-- `check_cost_limits` with a fallible ledger store, for the fail-open
claim: `lookup` stands for `cost_cache.get(cost_key)` and `store` for the
`cost_cache[cost_key] = ...` write, each able to raise (`Except.error`).
The source wraps the whole body in `try: ... except Exception: return True`,
so any raise yields `true`. -/
def check_cost_limits_fallible (service : String) (estimated_cost : ℚ)
    (lookup : Except Unit (Option CostMonitoring))
    (store : Except Unit Unit) : Bool :=
  let body : Except Unit Bool := do
    let cfg ← match RATE_LIMITS service with
      | some cfg => Except.ok cfg
      | none => Except.error ()
    let daily_cost ← lookup
    let current_cost := costOf daily_cost
    if cfg.COST_LIMIT_PER_DAY < current_cost + estimated_cost then
      return false
    else do
      _ ← store
      return true
  match body with
  | .ok b => b
  | .error _ => true

/-! ## Circuit breaker (`results_processor.AIResultsProcessor`) -/

/-- The breaker fields of `AIResultsProcessor` (`__init__`, lines 41–45).
Time is `ℚ` (the source stores `time.time()` floats). -/
structure BreakerState where
  circuit_breaker_failures : Nat
  circuit_breaker_threshold : Nat
  circuit_breaker_timeout : ℚ
  last_failure_time : ℚ
deriving Repr, DecidableEq

/-- `AIResultsProcessor.__init__`: 0 failures, threshold 5, timeout 300 s,
last failure time 0. -/
def initBreaker : BreakerState := ⟨0, 5, 300, 0⟩

/-- `_is_circuit_breaker_open` (lines 221–232): closed below threshold;
at / above threshold, if the timeout has strictly elapsed since the last
failure the breaker resets its failure count and reports closed, else it
reports open. Returns the flag and the (possibly reset) state. -/
def is_circuit_breaker_open (now : ℚ) (st : BreakerState) :
    Bool × BreakerState :=
  if st.circuit_breaker_failures < st.circuit_breaker_threshold then
    (false, st)
  else if st.circuit_breaker_timeout < now - st.last_failure_time then
    (false, { st with circuit_breaker_failures := 0 })
  else
    (true, st)

/-- `_handle_circuit_breaker_failure` (lines 234–240), the spec's
`recordFailure()`: increment the failure count and stamp the time. -/
def handle_circuit_breaker_failure (now : ℚ) (st : BreakerState) :
    BreakerState :=
  { st with
    circuit_breaker_failures := st.circuit_breaker_failures + 1,
    last_failure_time := now }

/-- The spec's `recordSuccess()`, realized by
`self.circuit_breaker_failures = 0` on the success path of
`process_results` (line 114). -/
def record_success (st : BreakerState) : BreakerState :=
  { st with circuit_breaker_failures := 0 }

/-- Consecutive `recordFailure` calls at the listed times. -/
def recordFailures (times : List ℚ) (st : BreakerState) : BreakerState :=
  times.foldl (fun s t => handle_circuit_breaker_failure t s) st

/-! ## Authentication (`middleware.authenticate_token`, lines 50–117) -/

/-- Outcome of the `try` block around `get_secure_config()` and
`jwt.decode(token, key, algorithms=['HS256'])`, both external collaborators:
a decoded claims payload (`userId`, `address`, each possibly absent), an
`ExpiredSignatureError`, an `InvalidTokenError`, or any other exception
(e.g. the secret store raising inside `get_secure_config`). -/
inductive DecodeOutcome where
  | ok (userId : Option String) (address : Option String)
  | expired
  | invalid
  | failure
deriving Repr, DecidableEq

/-- Result of the `authenticate_token` decorator, with the HTTP response
each rejection stands for. -/
inductive AuthOutcome where
  /-- the wrapped handler runs with `request.user_id` / `request.user_address`
  set to the decoded claims -/
  | proceed (user_id : Option String) (address : Option String)
  /-- `jsonify({'error': msg}), status` -/
  | reject (status : Nat) (msg : String)
deriving Repr, DecidableEq

/-- Python's `str.split(sep)` for a single-character separator: split on
every occurrence, keeping empty pieces. -/
def splitCh (sep : Char) : List Char → List (List Char)
  | [] => [[]]
  | c :: cs =>
    let r := splitCh sep cs
    if c = sep then [] :: r
    else
      match r with
      | [] => [[c]]
      | g :: gs => (c :: g) :: gs

/-- `auth_header.startswith('Bearer ')`, stated on the character lists so
that it evaluates inside the kernel. -/
def startsWithBearer (h : String) : Bool :=
  List.isPrefixOf (("Bearer ").data) h.data

/-- `auth_header.split(' ')[1] if auth_header and auth_header.startswith('Bearer ')
else None`. -/
def tokenOf (auth_header : Option String) : Option String :=
  match auth_header with
  | none => none
  | some h =>
    if startsWithBearer h then
      ((splitCh ' ' h.data).get? 1).map List.asString
    else none

/-- The `authenticate_token` decorator body: extract the bearer token
(`None` and the empty string are both falsy, hence "Access token required"),
then dispatch on the decode outcome. Returns the outcome and the audit
records written via `log_audit_event`; the blanket `except Exception`
branch (lines 113–115) only logs to `logger.error` and writes no audit
record. -/
def authenticate_token (decode : String → DecodeOutcome)
    (auth_header : Option String) (path ts rid : String) :
    AuthOutcome × List AuditLog :=
  let missing : AuthOutcome × List AuditLog :=
    (.reject 401 ("Access token required"),
      [⟨some ("unknown"), "authenticate", path, ts, rid, false,
        some ("Access token required")⟩])
  match tokenOf auth_header with
  | none => missing
  | some t =>
    if t = "" then missing
    else
      match decode t with
      | .ok uid addr =>
        (.proceed uid addr,
          [⟨uid, "authenticate", path, ts, rid, true, none⟩])
      | .expired =>
        (.reject 403 ("Token expired"),
          [⟨some ("unknown"), "authenticate", path, ts, rid, false,
            some ("Token expired")⟩])
      | .invalid =>
        (.reject 403 ("Invalid or expired token"),
          [⟨some ("unknown"), "authenticate", path, ts, rid, false,
            some ("Invalid token")⟩])
      | .failure =>
        (.reject 500 ("Authentication service unavailable"), [])

/-! ## Results processing (`results_processor.AIResultsProcessor`) -/

/-- A JSON-ish field value inside the `verificationResults` dict (the
validator only distinguishes numbers, strings, and everything else). -/
inductive Value where
  | num (q : ℚ)
  | str (s : String)
deriving Repr, DecidableEq

/-- The `verificationResults` dict: each required field either present with
a value or absent. -/
structure VerificationResults where
  submissionId : Option Value
  qualityScore : Option Value
  languageDetected : Option Value
  confidence : Option Value
deriving Repr, DecidableEq

/-- `isinstance(v, (int, float)) and lo <= v <= hi`. -/
def isNumIn (v : Option Value) (lo hi : ℚ) : Bool :=
  match v with
  | some (.num q) => lo ≤ q ∧ q ≤ hi
  | _ => false

/-- `isinstance(v, str) and len(v) >= 2`. -/
def isLangCode (v : Option Value) : Bool :=
  match v with
  | some (.str s) => 2 ≤ s.length
  | _ => false

/-- `_validate_verification_results` (lines 140–160): `some msg` when the
source raises `ValueError(msg)`, `none` when validation passes. Required
fields are checked in order, then the range/type checks. -/
def validate_verification_results (r : VerificationResults) :
    Option String :=
  if r.submissionId.isNone then
    some ("Missing required field in verification results: submissionId")
  else if r.qualityScore.isNone then
    some ("Missing required field in verification results: qualityScore")
  else if r.languageDetected.isNone then
    some ("Missing required field in verification results: languageDetected")
  else if r.confidence.isNone then
    some ("Missing required field in verification results: confidence")
  else if ¬ isNumIn r.qualityScore 0 100 then
    some ("Quality score must be a number between 0 and 100")
  else if ¬ isNumIn r.confidence 0 1 then
    some ("Confidence must be a number between 0 and 1")
  else if ¬ isLangCode r.languageDetected then
    some ("Language detected must be a valid language code")
  else none

/-- The `request_data` dict handed to `process_results`
(`AIResultsRequest.__init__` raises `KeyError` when `submissionId` or
`verificationResults` is absent; `userToken` defaults to `''`). -/
structure RequestData where
  submissionId : Option String
  verificationResults : Option VerificationResults
  userToken : Option String
deriving Repr, DecidableEq

/-- Entry of `results_cache` (written on lines 91–95). -/
structure CachedResult where
  txHash : Option String
  timestamp : String
  qualityScore : Option Value
deriving Repr, DecidableEq

/-- `AIResultsResponse.to_dict()`. -/
structure ProcResponse where
  submissionId : String
  processed : Bool
  smartContractTxHash : Option String
  cached : Bool
  processingTime : Int
deriving Repr, DecidableEq

/-- Mutable state touched by `process_results`: the breaker fields of the
processor instance and the module-level `results_cache`. -/
structure ProcState where
  breaker : BreakerState
  results_cache : String → Option CachedResult

structure ProcResult where
  /-- `Except.error e` models the exception re-raised on line 138. -/
  outcome : Except String ProcResponse
  state : ProcState
  audits : List AuditLog

/-- The exception handler of `process_results` (lines 118–138): record a
breaker failure (stamped at `nowFail`, the handler's own `time.time()`
read), write the failure audit record, and re-raise. -/
def proc_failure (e : String) (nowFail : ℚ) (ts : String)
    (data : RequestData) (br : BreakerState)
    (cache : String → Option CachedResult) : ProcResult :=
  ⟨.error e,
    ⟨handle_circuit_breaker_failure nowFail br, cache⟩,
    [⟨some (data.userToken.getD ("unknown")), "process_ai_results",
      "/ai-results", ts, data.submissionId.getD ("unknown"), false, some e⟩]⟩

/-- `_process_verification_results` plus `_simulate_smart_contract_call`
(lines 162–219): extract the metrics, compute
`passes_quality = quality_score >= 70 and confidence >= 0.6`, and invoke
the smart-contract integration. The integration itself is the external
collaborator the breaker protects; it is the parameter
`simulate : submissionId → qualityScore → confidence → language →
passes_quality → Except error txHash`, any raise being wrapped into
`ValueError('Results processing failed: ...')`. -/
def process_verification_results
    (simulate : String → ℚ → ℚ → String → Bool → Except String String)
    (sid : String) (r : VerificationResults) : Except String String :=
  match r.qualityScore, r.confidence, r.languageDetected with
  | some (.num q), some (.num c), some (.str lang) =>
    let passes_quality : Bool := 70 ≤ q ∧ (6 : ℚ)/10 ≤ c
    match simulate sid q c lang passes_quality with
    | .ok txHash => .ok txHash
    | .error e => .error ("Results processing failed: " ++ e)
  | _, _, _ => .error ("Results processing failed: missing metric")

/-- `process_results` (lines 47–138): parse the request, validate the
verification results, return any cached result for the submission id,
otherwise consult the circuit breaker (failing fast when open), run the
integration, cache and audit a successful result and reset the breaker.
Every raise funnels through `proc_failure`. `now` is the breaker-check
clock read, `nowFail` the failure handler's, `t0`/`t1` the millisecond
readings that produce `processing_time`, `ts` the audit timestamp. -/
def process_results
    (simulate : String → ℚ → ℚ → String → Bool → Except String String)
    (now nowFail : ℚ) (t0 t1 : Int) (ts : String)
    (data : RequestData) (st : ProcState) : ProcResult :=
  match data.submissionId, data.verificationResults with
  | none, _ => proc_failure ("submissionId") nowFail ts data st.breaker st.results_cache
  | _, none => proc_failure ("verificationResults") nowFail ts data st.breaker st.results_cache
  | some sid, some vr =>
    match validate_verification_results vr with
    | some msg => proc_failure msg nowFail ts data st.breaker st.results_cache
    | none =>
      let cache_key := "results_" ++ sid
      match st.results_cache cache_key with
      | some cached_result =>
        ⟨.ok ⟨sid, true, cached_result.txHash, true, t1 - t0⟩, st, []⟩
      | none =>
        let checked := is_circuit_breaker_open now st.breaker
        if checked.1 then
          proc_failure ("Smart contract integration temporarily unavailable")
            nowFail ts data checked.2 st.results_cache
        else
          match process_verification_results simulate sid vr with
          | .error e => proc_failure e nowFail ts data checked.2 st.results_cache
          | .ok txHash =>
            ⟨.ok ⟨sid, true, some txHash, false, t1 - t0⟩,
              ⟨record_success checked.2,
                fun k => if k = cache_key then
                    some ⟨some txHash, ts, vr.qualityScore⟩
                  else st.results_cache k⟩,
              [⟨some (data.userToken.getD ("")), "process_ai_results",
                "/ai-results", ts, sid, true, none⟩]⟩

/-! ## Concrete instances used by witnesses and counterexamples -/

/-- A decode function for witnesses: one expired token, one invalid token,
everything else verifies as user `u`. -/
def wDecode : String → DecodeOutcome := fun t =>
  if t = "exp" then .expired
  else if t = "bad" then .invalid
  else if t = "boom" then .failure
  else .ok (some ("u")) (some ("0xaddr"))

/-- A smart-contract integration that always succeeds, for witnesses. -/
def simOk : String → ℚ → ℚ → String → Bool → Except String String :=
  fun _ _ _ _ _ => .ok ("0xfeed")

/-- Valid verification results for submission `sub1` (confidence 1 keeps
every rational in the witness integral, so the kernel can evaluate it). -/
def vrGood : VerificationResults :=
  ⟨some (.str ("sub1")), some (.num 80), some (.str ("en")),
    some (.num 1)⟩

/-- Verification results with an out-of-range quality score. -/
def vrBadScore : VerificationResults :=
  ⟨some (.str ("sub1")), some (.num 150), some (.str ("en")),
    some (.num 1)⟩

/-- Verification results with the `qualityScore` field missing. -/
def vrMissing : VerificationResults :=
  ⟨some (.str ("sub1")), none, some (.str ("en")), some (.num 1)⟩

/-- A cached integration result for submission `sub1`. -/
def crSub1 : CachedResult := ⟨some ("0xcafe"), "ts0", some (.num 80)⟩

/-- Processor state whose results cache holds `sub1` and whose breaker is
fresh. -/
def stCached : ProcState :=
  ⟨initBreaker, fun k => if k = "results_" ++ "sub1" then some crSub1 else none⟩

/-- Processor state with an empty results cache and a fresh breaker. -/
def stFresh : ProcState := ⟨initBreaker, fun _ => none⟩

/-- Rate-limiter state for user `u`, service `GEMINI`, minute window and
hour window both at count 59 — one admission below the per-minute limit
of 60. -/
def st59 : RateState :=
  ⟨fun k =>
    if k = minuteKey ("u") ("GEMINI") 0 then some ⟨"u", "/e", 59, 0, 60⟩
    else if k = hourlyKey ("u") ("GEMINI") 0 then some ⟨"u", "/e", 59, 0, 1000⟩
    else none⟩

/-- Cost cache with no ledger entries (a fresh day). -/
def emptyCostState : CostState := ⟨fun _ => none⟩

/-- Request for submission `sub1` with valid verification results. -/
def dataGood : RequestData := ⟨some ("sub1"), some vrGood, some ("tok")⟩

/-- Request for submission `sub1` whose `qualityScore` field is missing. -/
def dataMissingScore : RequestData :=
  ⟨some ("sub1"), some vrMissing, some ("tok")⟩

/-- Request for submission `sub1` whose quality score is out of range. -/
def dataBadScore : RequestData :=
  ⟨some ("sub1"), some vrBadScore, some ("tok")⟩

/-- Request whose `submissionId` key is missing. -/
def dataNoSub : RequestData := ⟨none, some vrGood, some ("tok")⟩

/-- Request whose `verificationResults` key is missing. -/
def dataNoVr : RequestData := ⟨some ("sub1"), none, some ("tok")⟩

/-- A smart-contract integration that always fails, for witnesses. -/
def simBad : String → ℚ → ℚ → String → Bool → Except String String :=
  fun _ _ _ _ _ => .error ("chain down")

/-- Processor state with an open breaker (5 failures at threshold 5, last
failure at time 0, cooldown 300) and an empty results cache. -/
def stOpen : ProcState := ⟨⟨5, 5, 300, 0⟩, fun _ => none⟩

/-- Processor state with an open breaker whose results cache holds `sub1`. -/
def stOpenCached : ProcState :=
  ⟨⟨5, 5, 300, 0⟩,
    fun k => if k = "results_" ++ "sub1" then some crSub1 else none⟩

/-- Rate-limiter state for user `u`, service `GEMINI`, minute window of
epoch second 10 at the per-minute limit 60. -/
def stAtLimit : RateState :=
  ⟨fun k =>
    if k = minuteKey ("u") ("GEMINI") 10 then some ⟨"u", "/e", 60, 0, 60⟩
    else none⟩

/-! ## Helper lemmas: cost governor agreement -/

/-- The fallible rendition agrees with `check_cost_limits` when neither
store operation fails. -/
theorem check_cost_limits_fallible_agrees (uid service today : String)
    (c : ℚ) (now : Nat) (st : CostState) :
    check_cost_limits_fallible service c
        (Except.ok (st.cache (costKey uid service today))) (Except.ok ())
      = (check_cost_limits uid service today c now st).allowed := by
  unfold check_cost_limits_fallible check_cost_limits
  cases hc : RATE_LIMITS service with
  | none => rfl
  | some cfg =>
    by_cases h : cfg.COST_LIMIT_PER_DAY
        < costOf (st.cache (costKey uid service today)) + c
    · simp [bind, Except.bind, h, pure, Except.pure]
    · simp [bind, Except.bind, h, pure, Except.pure]

/-! ## Helper lemmas: circuit breaker -/

theorem recordFailures_cons (t : ℚ) (ts : List ℚ) (st : BreakerState) :
    recordFailures (t :: ts) st
      = recordFailures ts (handle_circuit_breaker_failure t st) := rfl

theorem recordFailures_failures (times : List ℚ) (st : BreakerState) :
    (recordFailures times st).circuit_breaker_failures
      = st.circuit_breaker_failures + times.length := by
  induction times generalizing st with
  | nil => rfl
  | cons t ts ih =>
    rw [recordFailures_cons, ih]
    simp [handle_circuit_breaker_failure]
    omega

theorem recordFailures_threshold (times : List ℚ) (st : BreakerState) :
    (recordFailures times st).circuit_breaker_threshold
      = st.circuit_breaker_threshold := by
  induction times generalizing st with
  | nil => rfl
  | cons t ts ih => rw [recordFailures_cons, ih]; rfl

theorem recordFailures_timeout (times : List ℚ) (st : BreakerState) :
    (recordFailures times st).circuit_breaker_timeout
      = st.circuit_breaker_timeout := by
  induction times generalizing st with
  | nil => rfl
  | cons t ts ih => rw [recordFailures_cons, ih]; rfl

theorem recordFailures_last (times : List ℚ) (tlast : ℚ)
    (h : times.getLast? = some tlast) (st : BreakerState) :
    (recordFailures times st).last_failure_time = tlast := by
  induction times generalizing st with
  | nil => simp at h
  | cons t ts ih =>
    rw [recordFailures_cons]
    cases ts with
    | nil =>
      simp [List.getLast?] at h
      simp [recordFailures, handle_circuit_breaker_failure, h]
    | cons t' ts' =>
      rw [List.getLast?_cons_cons] at h
      exact ih h _

/-- C3: starting from a fresh breaker, after exactly `threshold` consecutive
`recordFailure` calls `isOpen()` returns `true` (checked at any time no more
than the cooldown after the last failure); after a single `recordSuccess`
the failure count is 0 and `isOpen()` returns `false`; and after `threshold`
failures followed by a wait strictly exceeding the cooldown, `isOpen()`
returns `false` and, as a side effect, resets the failure count to zero. -/
theorem circuit_breaker_state_machine (thr : Nat) (tmo : ℚ)
    (times : List ℚ) (tlast : ℚ) (st1 : BreakerState)
    (hthr : 0 < thr) (hlen : times.length = thr)
    (hlast : times.getLast? = some tlast)
    (hst : st1 = recordFailures times ⟨0, thr, tmo, 0⟩) :
    st1.circuit_breaker_failures = thr ∧
    (∀ now : ℚ, now - tlast ≤ tmo →
      (is_circuit_breaker_open now st1).1 = true) ∧
    ((record_success st1).circuit_breaker_failures = 0 ∧
      ∀ now : ℚ, (is_circuit_breaker_open now (record_success st1)).1 = false) ∧
    (∀ now : ℚ, tmo < now - tlast →
      (is_circuit_breaker_open now st1).1 = false ∧
      ((is_circuit_breaker_open now st1).2).circuit_breaker_failures = 0) := by
  have hfail : st1.circuit_breaker_failures = thr := by
    rw [hst, recordFailures_failures]; simpa using hlen
  have hthr' : st1.circuit_breaker_threshold = thr := by
    rw [hst, recordFailures_threshold]
  have htmo : st1.circuit_breaker_timeout = tmo := by
    rw [hst, recordFailures_timeout]
  have hlast' : st1.last_failure_time = tlast := by
    rw [hst, recordFailures_last times tlast hlast]
  refine ⟨hfail, ?_, ⟨rfl, ?_⟩, ?_⟩
  · intro now hnow
    simp [is_circuit_breaker_open, hfail, hthr', htmo, hlast', not_lt.mpr hnow]
  · intro now
    simp [is_circuit_breaker_open, record_success, hthr', hthr]
  · intro now hnow
    simp [is_circuit_breaker_open, hfail, hthr', htmo, hlast', hnow]

theorem circuit_breaker_state_machine_witness :
    (recordFailures [1, 2, 3, 4, 5] initBreaker).circuit_breaker_failures = 5
      ∧ (is_circuit_breaker_open 5
          (recordFailures [1, 2, 3, 4, 5] initBreaker)).1 = true
      ∧ (record_success
          (recordFailures [1, 2, 3, 4, 5] initBreaker)).circuit_breaker_failures = 0
      ∧ (is_circuit_breaker_open 7
          (record_success (recordFailures [1, 2, 3, 4, 5] initBreaker))).1 = false
      ∧ (is_circuit_breaker_open 306
          (recordFailures [1, 2, 3, 4, 5] initBreaker)).1 = false
      ∧ ((is_circuit_breaker_open 306
          (recordFailures [1, 2, 3, 4, 5] initBreaker)).2).circuit_breaker_failures = 0 := by
  have h := circuit_breaker_state_machine 5 300 [1, 2, 3, 4, 5] 5
    (recordFailures [1, 2, 3, 4, 5] initBreaker)
    (by decide) (by decide) (by decide) rfl
  exact ⟨h.1, h.2.1 5 (by norm_num), h.2.2.1.1, h.2.2.1.2 7,
    (h.2.2.2 306 (by norm_num)).1, (h.2.2.2 306 (by norm_num)).2⟩

/-- C4: a missing `Authorization` header is rejected as the
missing-credential failure (401, "Access token required"); a header not
starting with `Bearer ` is rejected identically; a token that decodes to an
elapsed expiry is rejected as the expired-credential failure (403, "Token
expired"); any other signature or structure failure is rejected as the
invalid-credential failure (403, "Invalid or expired token"); and the three
rejection outcomes are pairwise distinct. -/
theorem authenticate_token_taxonomy (decode : String → DecodeOutcome)
    (path ts rid : String) :
    ((authenticate_token decode none path ts rid).1
        = .reject 401 ("Access token required")) ∧
    (∀ hdr : String, startsWithBearer hdr = false →
      (authenticate_token decode (some hdr) path ts rid).1
        = .reject 401 ("Access token required")) ∧
    (∀ hdr t, tokenOf (some hdr) = some t → t ≠ "" →
      decode t = .expired →
      (authenticate_token decode (some hdr) path ts rid).1
        = .reject 403 ("Token expired")) ∧
    (∀ hdr t, tokenOf (some hdr) = some t → t ≠ "" →
      decode t = .invalid →
      (authenticate_token decode (some hdr) path ts rid).1
        = .reject 403 ("Invalid or expired token")) ∧
    (AuthOutcome.reject 401 ("Access token required")
        ≠ AuthOutcome.reject 403 ("Token expired") ∧
      AuthOutcome.reject 401 ("Access token required")
        ≠ AuthOutcome.reject 403 ("Invalid or expired token") ∧
      AuthOutcome.reject 403 ("Token expired")
        ≠ AuthOutcome.reject 403 ("Invalid or expired token")) := by
  refine ⟨rfl, ?_, ?_, ?_, by decide, by decide, by decide⟩
  · intro hdr hns
    simp [authenticate_token, tokenOf, hns]
  · intro hdr t htok ht hdec
    simp [authenticate_token, htok, ht, hdec]
  · intro hdr t htok ht hdec
    simp [authenticate_token, htok, ht, hdec]

theorem authenticate_token_taxonomy_witness :
    ((authenticate_token wDecode none "/p" "t0" "r1").1
        = .reject 401 ("Access token required")) ∧
    ((authenticate_token wDecode (some ("Basic abc")) "/p" "t0" "r1").1
        = .reject 401 ("Access token required")) ∧
    ((authenticate_token wDecode (some ("Bearer exp")) "/p" "t0" "r1").1
        = .reject 403 ("Token expired")) ∧
    ((authenticate_token wDecode (some ("Bearer bad")) "/p" "t0" "r1").1
        = .reject 403 ("Invalid or expired token")) := by
  have h := authenticate_token_taxonomy wDecode "/p" "t0" "r1"
  exact ⟨h.1,
    h.2.1 ("Basic abc") (by decide),
    h.2.2.1 ("Bearer exp") ("exp") (by decide) (by decide) (by decide),
    h.2.2.2.1 ("Bearer bad") ("bad") (by decide) (by decide) (by decide)⟩

/-- C5 counterexample: a rate-limit decision (here: an admission for an
authenticated user of a configured service) produces zero audit records,
not exactly one — `rate_limiter` never calls `log_audit_event`. -/
theorem audit_missing_counterexample :
    (rate_limiter ("GEMINI") (some ("u")) ("/e") 0 emptyRateState).decision
        = RateDecision.admitted ∧
    (rate_limiter ("GEMINI") (some ("u")) ("/e") 0 emptyRateState).audits
        = [] := ⟨rfl, rfl⟩

/-- C5 (amended): among the admission-pipeline events, only authentication
attempts are audited, and only on the missing-token, success, expired and
invalid paths — exactly one record each; the authentication
infrastructure-failure path (500) produces none, and rate-limit and cost
decisions produce none. -/
theorem audit_records_amended (decode : String → DecodeOutcome)
    (path ts rid : String) :
    (∀ hdr, ((authenticate_token decode hdr path ts rid).2).length
        = if (authenticate_token decode hdr path ts rid).1
            = AuthOutcome.reject 500 ("Authentication service unavailable")
          then 0 else 1) ∧
    (∀ service user_id endpoint now st,
      (rate_limiter service user_id endpoint now st).audits = []) ∧
    (∀ uid service today c now st,
      (check_cost_limits uid service today c now st).audits = []) := by
  refine ⟨?_, ?_, ?_⟩
  · intro hdr
    unfold authenticate_token
    cases htok : tokenOf hdr with
    | none => simp
    | some t =>
      by_cases ht : t = ""
      · simp [ht]
      · cases hdec : decode t <;> simp [ht, hdec]
  · intro service user_id endpoint now st
    cases user_id with
    | none => rfl
    | some uid =>
      cases hcfg : RATE_LIMITS service with
      | none => simp [rate_limiter, hcfg]
      | some cfg =>
        cases hph : rl_check service uid now cfg st <;>
          simp [rate_limiter, hcfg, hph]
  · intro uid service today c now st
    unfold check_cost_limits
    cases RATE_LIMITS service with
    | none => rfl
    | some cfg =>
      by_cases h : cfg.COST_LIMIT_PER_DAY
          < costOf (st.cache (costKey uid service today)) + c
      · simp [h]
      · simp [h]

/-- C7: the cost governor fails open — if the ledger lookup raises, or the
ledger update raises on an under-cap request, `check_cost_limits` returns
`true` (admit); the `Bool` return type itself records that no store failure
propagates to the caller. -/
theorem check_cost_limits_fails_open (service : String) (c : ℚ)
    (cfg : ServiceConfig) (hcfg : RATE_LIMITS service = some cfg) :
    (∀ store, check_cost_limits_fallible service c (Except.error ()) store
        = true) ∧
    (∀ daily_cost, ¬ cfg.COST_LIMIT_PER_DAY < costOf daily_cost + c →
      check_cost_limits_fallible service c (Except.ok daily_cost)
          (Except.error ()) = true) := by
  constructor
  · intro store
    simp [check_cost_limits_fallible, hcfg, bind, Except.bind]
  · intro daily_cost h
    simp [check_cost_limits_fallible, hcfg, bind, Except.bind, h]

theorem check_cost_limits_fails_open_witness :
    check_cost_limits_fallible ("GEMINI") 1 (Except.error ()) (Except.ok ())
        = true ∧
    check_cost_limits_fallible ("GEMINI") 1 (Except.ok none) (Except.error ())
        = true := by
  have h := check_cost_limits_fails_open ("GEMINI") 1 ⟨60, 1000, 100⟩ rfl
  exact ⟨h.1 (Except.ok ()), h.2 none (by norm_num [costOf])⟩

/-! ## Helper lemmas: retry-after extraction -/

theorem rejectMinute_retry (service : String) (user_id : Option String)
    (endpoint : String) (now : Nat) (st : RateState) (r : Nat)
    (h : (rate_limiter service user_id endpoint now st).decision
      = RateDecision.rejectMinute r) :
    r = 60 - (now - now / 60 * 60) := by
  cases user_id with
  | none => simp [rate_limiter] at h
  | some uid =>
    cases hcfg : RATE_LIMITS service with
    | none => simp [rate_limiter, hcfg] at h
    | some cfg =>
      by_cases h1 : exceeds (st.cache (minuteKey uid service now))
          cfg.REQUESTS_PER_MINUTE = true
      · simp [rate_limiter, rl_check, hcfg, h1] at h
        exact h.symm
      · by_cases h2 : exceeds (st.cache (hourlyKey uid service now))
            cfg.REQUESTS_PER_HOUR = true
        · simp [rate_limiter, rl_check, hcfg, h1, h2] at h
        · simp [rate_limiter, rl_check, hcfg, h1, h2] at h

theorem rejectHour_retry (service : String) (user_id : Option String)
    (endpoint : String) (now : Nat) (st : RateState) (r : Nat)
    (h : (rate_limiter service user_id endpoint now st).decision
      = RateDecision.rejectHour r) :
    r = 3600 - (now - now / 3600 * 3600) := by
  cases user_id with
  | none => simp [rate_limiter] at h
  | some uid =>
    cases hcfg : RATE_LIMITS service with
    | none => simp [rate_limiter, hcfg] at h
    | some cfg =>
      by_cases h1 : exceeds (st.cache (minuteKey uid service now))
          cfg.REQUESTS_PER_MINUTE = true
      · simp [rate_limiter, rl_check, hcfg, h1] at h
      · by_cases h2 : exceeds (st.cache (hourlyKey uid service now))
            cfg.REQUESTS_PER_HOUR = true
        · simp [rate_limiter, rl_check, hcfg, h1, h2] at h
          exact h.symm
        · simp [rate_limiter, rl_check, hcfg, h1, h2] at h

/-- C8: every minute-window rejection reports
`retryAfter = 60 − (now − windowStart)`, which lies in `[0, 60]`; every
hour-window rejection reports `3600 − (now − windowStart)` in `[0, 3600]`;
and for two rejections of the same kind at `t1 < t2` inside one window the
later retry-after is strictly smaller. -/
theorem retry_after_bounds_monotone (service : String) :
    (∀ (user_id : Option String) endpoint now st r,
      (rate_limiter service user_id endpoint now st).decision
          = RateDecision.rejectMinute r →
      r = 60 - (now - now / 60 * 60) ∧ 0 ≤ r ∧ r ≤ 60) ∧
    (∀ (user_id : Option String) endpoint now st r,
      (rate_limiter service user_id endpoint now st).decision
          = RateDecision.rejectHour r →
      r = 3600 - (now - now / 3600 * 3600) ∧ 0 ≤ r ∧ r ≤ 3600) ∧
    (∀ (u1 u2 : Option String) e1 e2 t1 t2 st1 st2 r1 r2,
      t1 < t2 → t1 / 60 = t2 / 60 →
      (rate_limiter service u1 e1 t1 st1).decision
          = RateDecision.rejectMinute r1 →
      (rate_limiter service u2 e2 t2 st2).decision
          = RateDecision.rejectMinute r2 →
      r2 < r1) ∧
    (∀ (u1 u2 : Option String) e1 e2 t1 t2 st1 st2 r1 r2,
      t1 < t2 → t1 / 3600 = t2 / 3600 →
      (rate_limiter service u1 e1 t1 st1).decision
          = RateDecision.rejectHour r1 →
      (rate_limiter service u2 e2 t2 st2).decision
          = RateDecision.rejectHour r2 →
      r2 < r1) := by
  refine ⟨?_, ?_, ?_, ?_⟩
  · intro user_id endpoint now st r h
    have := rejectMinute_retry service user_id endpoint now st r h
    omega
  · intro user_id endpoint now st r h
    have := rejectHour_retry service user_id endpoint now st r h
    omega
  · intro u1 u2 e1 e2 t1 t2 st1 st2 r1 r2 hlt hw h1 h2
    have e1' := rejectMinute_retry service u1 e1 t1 st1 r1 h1
    have e2' := rejectMinute_retry service u2 e2 t2 st2 r2 h2
    omega
  · intro u1 u2 e1 e2 t1 t2 st1 st2 r1 r2 hlt hw h1 h2
    have e1' := rejectHour_retry service u1 e1 t1 st1 r1 h1
    have e2' := rejectHour_retry service u2 e2 t2 st2 r2 h2
    omega

theorem retry_after_bounds_monotone_witness :
    (50 = 60 - (10 - 10 / 60 * 60) ∧ 0 ≤ 50 ∧ 50 ≤ 60) ∧ (40 : Nat) < 50 := by
  have h := retry_after_bounds_monotone ("GEMINI")
  refine ⟨h.1 (some ("u")) ("/e") 10 stAtLimit 50 rfl, ?_⟩
  exact h.2.2.1 (some ("u")) (some ("u")) ("/e") ("/e") 10 20 stAtLimit
    stAtLimit 50 40 (by omega) rfl rfl rfl

/-! ## Helper lemmas: the two window keys of one call never collide
(the minute key ends in the decimal digits of the window start, while the
hourly key continues with `hourly:` at the same position). -/

theorem string_data_append (s t : String) : (s ++ t).data = s.data ++ t.data := rfl

theorem digitChar_isDigit (m : Nat) (h : m < 10) :
    (Nat.digitChar m).isDigit = true := by
  interval_cases m <;> decide

theorem toDigitsCore_digits (f : Nat) :
    ∀ (n : Nat) (ds : List Char), (∀ c ∈ ds, c.isDigit = true) →
      ∀ c ∈ Nat.toDigitsCore 10 f n ds, c.isDigit = true := by
  induction f with
  | zero => intro n ds hds c hc; exact hds c hc
  | succ f ih =>
    intro n ds hds c hc
    have hd : (Nat.digitChar (n % 10)).isDigit = true :=
      digitChar_isDigit _ (Nat.mod_lt _ (by norm_num))
    have hds' : ∀ c ∈ Nat.digitChar (n % 10) :: ds, c.isDigit = true := by
      intro c' hc'
      rcases List.mem_cons.mp hc' with h | h
      · subst h; exact hd
      · exact hds c' h
    simp only [Nat.toDigitsCore] at hc
    by_cases h0 : n / 10 = 0
    · rw [if_pos h0] at hc
      exact hds' c hc
    · rw [if_neg h0] at hc
      exact ih (n / 10) (Nat.digitChar (n % 10) :: ds) hds' c hc

theorem repr_data_digits (n : Nat) : ∀ c ∈ (Nat.repr n).data, c.isDigit = true := by
  intro c hc
  exact toDigitsCore_digits (n + 1) n [] (by intro c' hc'; simp at hc') c hc

theorem minuteKey_ne_hourlyKey (uid service : String) (t t' : Nat) :
    minuteKey uid service t ≠ hourlyKey uid service t' := by
  intro h
  have hd := congrArg String.data h
  simp only [minuteKey, hourlyKey, string_data_append, List.append_assoc] at hd
  have h1 := List.append_cancel_left hd
  have h2 := List.append_cancel_left h1
  have h3 := List.append_cancel_left h2
  have h4 : ':' :: (Nat.repr (t / 60 * 60)).data
      = ':' :: (['h', 'o', 'u', 'r', 'l', 'y', ':']
          ++ (Nat.repr (t' / 3600 * 3600)).data) := h3
  have h5 : (Nat.repr (t / 60 * 60)).data
      = ['h', 'o', 'u', 'r', 'l', 'y', ':']
          ++ (Nat.repr (t' / 3600 * 3600)).data := by
    injection h4
  have hh : ('h' : Char) ∈ (Nat.repr (t / 60 * 60)).data := by
    rw [h5]; exact List.mem_append_left _ (by decide)
  exact absurd (repr_data_digits (t / 60 * 60) 'h' hh) (by decide)

/-! ## Helper lemmas: the three branches of `rate_limiter` -/

theorem rate_limiter_reject_minute (service uid endpoint : String)
    (now : Nat) (cfg : ServiceConfig) (hcfg : RATE_LIMITS service = some cfg)
    (st : RateState)
    (h1 : exceeds (st.cache (minuteKey uid service now))
      cfg.REQUESTS_PER_MINUTE = true) :
    rate_limiter service (some uid) endpoint now st
      = ⟨.rejectMinute (60 - (now - now / 60 * 60)), st, []⟩ := by
  simp [rate_limiter, rl_check, hcfg, h1]

theorem rate_limiter_reject_hour (service uid endpoint : String)
    (now : Nat) (cfg : ServiceConfig) (hcfg : RATE_LIMITS service = some cfg)
    (st : RateState)
    (h1 : exceeds (st.cache (minuteKey uid service now))
      cfg.REQUESTS_PER_MINUTE = false)
    (h2 : exceeds (st.cache (hourlyKey uid service now))
      cfg.REQUESTS_PER_HOUR = true) :
    rate_limiter service (some uid) endpoint now st
      = ⟨.rejectHour (3600 - (now - now / 3600 * 3600)), st, []⟩ := by
  simp [rate_limiter, rl_check, hcfg, h1, h2]

theorem rate_limiter_admits (service uid endpoint : String)
    (now : Nat) (cfg : ServiceConfig) (hcfg : RATE_LIMITS service = some cfg)
    (st : RateState)
    (h1 : exceeds (st.cache (minuteKey uid service now))
      cfg.REQUESTS_PER_MINUTE = false)
    (h2 : exceeds (st.cache (hourlyKey uid service now))
      cfg.REQUESTS_PER_HOUR = false) :
    rate_limiter service (some uid) endpoint now st
      = ⟨.admitted,
          rl_write service uid endpoint now cfg
            (entryCount (st.cache (minuteKey uid service now)) + 1)
            (entryCount (st.cache (hourlyKey uid service now)) + 1) st,
          []⟩ := by
  simp [rate_limiter, rl_check, hcfg, h1, h2]

theorem rl_write_min (service uid endpoint : String) (now : Nat)
    (cfg : ServiceConfig) (mc hc : Nat) (st : RateState) :
    (rl_write service uid endpoint now cfg mc hc st).cache
        (minuteKey uid service now)
      = some ⟨uid, endpoint, mc, now / 60 * 60, cfg.REQUESTS_PER_MINUTE⟩ := by
  simp [rl_write, minuteKey_ne_hourlyKey uid service now now]

theorem rl_write_hour (service uid endpoint : String) (now : Nat)
    (cfg : ServiceConfig) (mc hc : Nat) (st : RateState) :
    (rl_write service uid endpoint now cfg mc hc st).cache
        (hourlyKey uid service now)
      = some ⟨uid, endpoint, hc, now / 3600 * 3600, cfg.REQUESTS_PER_HOUR⟩ := by
  simp [rl_write]

/-- Invariant of repeated calls within one minute from an empty cache:
after `k ≤ minute-limit` admitted calls both window entries hold count `k`
(absent when `k = 0`). -/
theorem rateRun_counts (service uid endpoint : String) (now : Nat)
    (cfg : ServiceConfig) (hcfg : RATE_LIMITS service = some cfg)
    (hle : cfg.REQUESTS_PER_MINUTE ≤ cfg.REQUESTS_PER_HOUR) :
    ∀ k, k ≤ cfg.REQUESTS_PER_MINUTE →
      ((rateRun service uid endpoint now k emptyRateState).cache
          (minuteKey uid service now)
        = if k = 0 then none
          else some ⟨uid, endpoint, k, now / 60 * 60, cfg.REQUESTS_PER_MINUTE⟩) ∧
      ((rateRun service uid endpoint now k emptyRateState).cache
          (hourlyKey uid service now)
        = if k = 0 then none
          else some ⟨uid, endpoint, k, now / 3600 * 3600, cfg.REQUESTS_PER_HOUR⟩) := by
  intro k
  induction k with
  | zero => intro _; exact ⟨rfl, rfl⟩
  | succ k ih =>
    intro hk
    obtain ⟨im, ihr⟩ := ih (Nat.le_of_succ_le hk)
    have hkm : k < cfg.REQUESTS_PER_MINUTE := hk
    have h1 : exceeds ((rateRun service uid endpoint now k emptyRateState).cache
        (minuteKey uid service now)) cfg.REQUESTS_PER_MINUTE = false := by
      rw [im]
      by_cases hk0 : k = 0
      · simp [hk0, exceeds]
      · simp [hk0, exceeds]
        omega
    have h2 : exceeds ((rateRun service uid endpoint now k emptyRateState).cache
        (hourlyKey uid service now)) cfg.REQUESTS_PER_HOUR = false := by
      rw [ihr]
      by_cases hk0 : k = 0
      · simp [hk0, exceeds]
      · simp [hk0, exceeds]
        omega
    have hstep := rate_limiter_admits service uid endpoint now cfg hcfg
      (rateRun service uid endpoint now k emptyRateState) h1 h2
    have hmc : entryCount ((rateRun service uid endpoint now k emptyRateState).cache
        (minuteKey uid service now)) = k := by
      rw [im]
      by_cases hk0 : k = 0
      · simp [hk0, entryCount]
      · simp [hk0, entryCount]
    have hhc : entryCount ((rateRun service uid endpoint now k emptyRateState).cache
        (hourlyKey uid service now)) = k := by
      rw [ihr]
      by_cases hk0 : k = 0
      · simp [hk0, entryCount]
      · simp [hk0, entryCount]
    have hrun : rateRun service uid endpoint now (k + 1) emptyRateState
        = rl_write service uid endpoint now cfg (k + 1) (k + 1)
            (rateRun service uid endpoint now k emptyRateState) := by
      show (rate_limiter service (some uid) endpoint now
        (rateRun service uid endpoint now k emptyRateState)).state = _
      rw [hstep, hmc, hhc]
    rw [hrun]
    refine ⟨?_, ?_⟩
    · rw [rl_write_min]
      simp
    · rw [rl_write_hour]
      simp

/-- C1: for an authenticated user and a configured service, a call first
checks the minute window — at/above the per-minute limit it rejects with
the minute retry-after and leaves the state untouched; otherwise it checks
the hour window the same way against the per-hour limit; otherwise it
increments both window entries (created at count 1 when absent) and admits.
In particular, from an empty window the first per-minute-limit calls are
all admitted and the next call in the same minute is rejected. -/
theorem rate_limiter_decision_logic (service uid endpoint : String)
    (now : Nat) (cfg : ServiceConfig)
    (hcfg : RATE_LIMITS service = some cfg) :
    (∀ st, exceeds (st.cache (minuteKey uid service now))
        cfg.REQUESTS_PER_MINUTE = true →
      rate_limiter service (some uid) endpoint now st
        = ⟨.rejectMinute (60 - (now - now / 60 * 60)), st, []⟩) ∧
    (∀ st, exceeds (st.cache (minuteKey uid service now))
        cfg.REQUESTS_PER_MINUTE = false →
      exceeds (st.cache (hourlyKey uid service now))
        cfg.REQUESTS_PER_HOUR = true →
      rate_limiter service (some uid) endpoint now st
        = ⟨.rejectHour (3600 - (now - now / 3600 * 3600)), st, []⟩) ∧
    (∀ st, exceeds (st.cache (minuteKey uid service now))
        cfg.REQUESTS_PER_MINUTE = false →
      exceeds (st.cache (hourlyKey uid service now))
        cfg.REQUESTS_PER_HOUR = false →
      (rate_limiter service (some uid) endpoint now st).decision
          = .admitted ∧
      (rate_limiter service (some uid) endpoint now st).state.cache
          (minuteKey uid service now)
        = some ⟨uid, endpoint,
            entryCount (st.cache (minuteKey uid service now)) + 1,
            now / 60 * 60, cfg.REQUESTS_PER_MINUTE⟩ ∧
      (rate_limiter service (some uid) endpoint now st).state.cache
          (hourlyKey uid service now)
        = some ⟨uid, endpoint,
            entryCount (st.cache (hourlyKey uid service now)) + 1,
            now / 3600 * 3600, cfg.REQUESTS_PER_HOUR⟩) ∧
    (0 < cfg.REQUESTS_PER_MINUTE →
      cfg.REQUESTS_PER_MINUTE ≤ cfg.REQUESTS_PER_HOUR →
      (∀ k, k < cfg.REQUESTS_PER_MINUTE →
        (rate_limiter service (some uid) endpoint now
          (rateRun service uid endpoint now k emptyRateState)).decision
            = .admitted) ∧
      (rate_limiter service (some uid) endpoint now
        (rateRun service uid endpoint now cfg.REQUESTS_PER_MINUTE
          emptyRateState)).decision
          = .rejectMinute (60 - (now - now / 60 * 60))) := by
  refine ⟨?_, ?_, ?_, ?_⟩
  · intro st h1
    exact rate_limiter_reject_minute service uid endpoint now cfg hcfg st h1
  · intro st h1 h2
    exact rate_limiter_reject_hour service uid endpoint now cfg hcfg st h1 h2
  · intro st h1 h2
    have hstep := rate_limiter_admits service uid endpoint now cfg hcfg st h1 h2
    rw [hstep]
    exact ⟨rfl, rl_write_min service uid endpoint now cfg _ _ st,
      rl_write_hour service uid endpoint now cfg _ _ st⟩
  · intro hpos hle
    constructor
    · intro k hk
      obtain ⟨im, ihr⟩ := rateRun_counts service uid endpoint now cfg hcfg hle
        k (Nat.le_of_lt hk)
      have h1 : exceeds ((rateRun service uid endpoint now k emptyRateState).cache
          (minuteKey uid service now)) cfg.REQUESTS_PER_MINUTE = false := by
        rw [im]
        by_cases hk0 : k = 0
        · simp [hk0, exceeds]
        · simp [hk0, exceeds]; omega
      have h2 : exceeds ((rateRun service uid endpoint now k emptyRateState).cache
          (hourlyKey uid service now)) cfg.REQUESTS_PER_HOUR = false := by
        rw [ihr]
        by_cases hk0 : k = 0
        · simp [hk0, exceeds]
        · simp [hk0, exceeds]; omega
      rw [rate_limiter_admits service uid endpoint now cfg hcfg _ h1 h2]
    · obtain ⟨im, ihr⟩ := rateRun_counts service uid endpoint now cfg hcfg hle
        cfg.REQUESTS_PER_MINUTE (Nat.le_refl _)
      have h1 : exceeds ((rateRun service uid endpoint now cfg.REQUESTS_PER_MINUTE
          emptyRateState).cache (minuteKey uid service now))
          cfg.REQUESTS_PER_MINUTE = true := by
        rw [im]
        have : cfg.REQUESTS_PER_MINUTE ≠ 0 := by omega
        simp [this, exceeds]
      rw [rate_limiter_reject_minute service uid endpoint now cfg hcfg _ h1]

theorem rate_limiter_decision_logic_witness :
    ((rate_limiter ("GEMINI") (some ("u")) ("/e") 0 stAtLimit).decision
        = RateDecision.rejectMinute 60) ∧
    ((rate_limiter ("GEMINI") (some ("u")) ("/e") 0 emptyRateState).decision
        = RateDecision.admitted) ∧
    ((rate_limiter ("GEMINI") (some ("u")) ("/e") 0 emptyRateState).state.cache
        (minuteKey ("u") ("GEMINI") 0) = some ⟨"u", "/e", 1, 0, 60⟩) ∧
    ((rate_limiter ("GEMINI") (some ("u")) ("/e") 0
        (rateRun ("GEMINI") ("u") ("/e") 0 60 emptyRateState)).decision
        = RateDecision.rejectMinute 60) := by
  have h := rate_limiter_decision_logic ("GEMINI") ("u") ("/e") 0
    ⟨60, 1000, 100⟩ rfl
  have h1 := h.1 stAtLimit (by decide)
  have h3 := h.2.2.1 emptyRateState (by decide) (by decide)
  have h4 := (h.2.2.2 (by decide) (by decide)).2
  refine ⟨?_, ?_, ?_, ?_⟩
  · rw [h1]
  · exact h3.1
  · rw [h3.2.1]; rfl
  · rw [h4]

/-! ## Helper lemmas: cost governor branches -/

theorem check_cost_limits_reject (uid service today : String) (c : ℚ)
    (now : Nat) (cfg : ServiceConfig) (hcfg : RATE_LIMITS service = some cfg)
    (st : CostState)
    (h : cfg.COST_LIMIT_PER_DAY
      < costOf (st.cache (costKey uid service today)) + c) :
    check_cost_limits uid service today c now st = ⟨false, st, []⟩ := by
  simp [check_cost_limits, hcfg, h]

theorem check_cost_limits_admits (uid service today : String) (c : ℚ)
    (now : Nat) (cfg : ServiceConfig) (hcfg : RATE_LIMITS service = some cfg)
    (st : CostState)
    (h : ¬ cfg.COST_LIMIT_PER_DAY
      < costOf (st.cache (costKey uid service today)) + c) :
    check_cost_limits uid service today c now st
      = ⟨true,
          ⟨fun k => if k = costKey uid service today then
              some ⟨uid, service,
                costOf (st.cache (costKey uid service today)) + c,
                costCount (st.cache (costKey uid service today)) + 1, now⟩
            else st.cache k⟩,
          []⟩ := by
  simp [check_cost_limits, hcfg, h]

/-- C2: for a configured service with daily cap `C`, a call with estimate
`c` returns `false` iff the ledger's accumulated cost plus `c` exceeds `C`;
on `false` the state is unchanged; on `true` the entry's cumulative cost
grows by exactly `c` (created at `c` when absent) and its request count by
exactly one; and consequently a whole same-day sequence of calls produces
exactly the decisions of the spec-side governor recursion, in which a call
fails iff the sum of previously admitted costs plus its own estimate
exceeds `C`. -/
theorem cost_governor_check_and_reserve (uid service today : String)
    (now : Nat) (cfg : ServiceConfig)
    (hcfg : RATE_LIMITS service = some cfg) :
    (∀ st (c : ℚ),
      ((check_cost_limits uid service today c now st).allowed = false ↔
        cfg.COST_LIMIT_PER_DAY
          < costOf (st.cache (costKey uid service today)) + c) ∧
      ((check_cost_limits uid service today c now st).allowed = false →
        (check_cost_limits uid service today c now st).state = st) ∧
      ((check_cost_limits uid service today c now st).allowed = true →
        (check_cost_limits uid service today c now st).state.cache
            (costKey uid service today)
          = some ⟨uid, service,
              costOf (st.cache (costKey uid service today)) + c,
              costCount (st.cache (costKey uid service today)) + 1, now⟩)) ∧
    (∀ (cs : List ℚ) (st : CostState),
      (costRun uid service today now cs st).1
        = costGovernorSpec cfg.COST_LIMIT_PER_DAY
            (costOf (st.cache (costKey uid service today))) cs) := by
  constructor
  · intro st c
    by_cases h : cfg.COST_LIMIT_PER_DAY
        < costOf (st.cache (costKey uid service today)) + c
    · rw [check_cost_limits_reject uid service today c now cfg hcfg st h]
      exact ⟨by simpa using h, fun _ => rfl, by intro hc; simp at hc⟩
    · rw [check_cost_limits_admits uid service today c now cfg hcfg st h]
      refine ⟨by simpa using h, by intro hc; simp at hc, fun _ => ?_⟩
      simp
  · intro cs
    induction cs with
    | nil => intro st; rfl
    | cons c cs ih =>
      intro st
      by_cases h : cfg.COST_LIMIT_PER_DAY
          < costOf (st.cache (costKey uid service today)) + c
      · rw [costRun, check_cost_limits_reject uid service today c now cfg hcfg st h]
        simp only []
        rw [ih st, costGovernorSpec, if_pos h]
      · rw [costRun, check_cost_limits_admits uid service today c now cfg hcfg st h]
        simp only []
        rw [ih, costGovernorSpec, if_neg h]
        congr 1
        simp [costOf]

theorem cost_governor_check_and_reserve_witness :
    ((check_cost_limits ("u") ("GEMINI") ("2026-10-12") 30 7
        emptyCostState).allowed = true) ∧
    ((check_cost_limits ("u") ("GEMINI") ("2026-10-12") 101 7
        emptyCostState).allowed = false) ∧
    ((costRun ("u") ("GEMINI") ("2026-10-12") 7 [60, 60, 60]
        emptyCostState).1 = [true, false, false]) := by
  have h := cost_governor_check_and_reserve ("u") ("GEMINI") ("2026-10-12") 7
    ⟨60, 1000, 100⟩ rfl
  refine ⟨?_, ?_, ?_⟩
  · have hiff := (h.1 emptyCostState 30).1
    have hno : ¬ (check_cost_limits ("u") ("GEMINI") ("2026-10-12") 30 7
        emptyCostState).allowed = false := by
      rw [hiff]; norm_num [emptyCostState, costOf]
    cases hb : (check_cost_limits ("u") ("GEMINI") ("2026-10-12") 30 7
        emptyCostState).allowed with
    | true => rfl
    | false => exact absurd hb hno
  · exact (h.1 emptyCostState 101).1.mpr (by norm_num [emptyCostState, costOf])
  · rw [h.2 [60, 60, 60] emptyCostState]
    norm_num [emptyCostState, costOf, costGovernorSpec]

/-! ## Helper lemmas: results processor -/

/-- When `_is_circuit_breaker_open` reports open it has not modified the
breaker state. -/
theorem is_open_true_state (now : ℚ) (st : BreakerState)
    (h : (is_circuit_breaker_open now st).1 = true) :
    (is_circuit_breaker_open now st).2 = st := by
  unfold is_circuit_breaker_open at h ⊢
  by_cases h1 : st.circuit_breaker_failures < st.circuit_breaker_threshold
  · simp [h1] at h
  · by_cases h2 : st.circuit_breaker_timeout < now - st.last_failure_time
    · simp [h1, h2] at h
    · simp [h1, h2]

/-- C6 counterexample: a results-processing invocation that fails input
validation — terminating before any downstream call could be attempted —
nevertheless increments the breaker failure count (0 → 1) and stamps the
last-failure timestamp (0 → 11). -/
theorem breaker_counts_non_downstream_counterexample :
    stFresh.breaker.circuit_breaker_failures = 0 ∧
    stFresh.breaker.last_failure_time = 0 ∧
    (process_results simOk 10 11 0 5 ("ts") dataMissingScore
        stFresh).state.breaker.circuit_breaker_failures = 1 ∧
    (process_results simOk 10 11 0 5 ("ts") dataMissingScore
        stFresh).state.breaker.last_failure_time = 11 := by
  exact ⟨rfl, rfl, rfl, rfl⟩

/-- C6 (amended): the breaker is charged on every exception path of
results processing, not only on downstream-call failures — a request-parse
failure (missing `submissionId` or missing `verificationResults`), an
input-validation failure, a fail-fast rejection because the breaker is
already open, and a downstream-call failure each increment the failure
count by one and stamp the last-failure time (the downstream-failure
increment applying to the breaker state left by the open check, which may
itself have auto-reset an elapsed-cooldown breaker), while the success
path leaves the failure count at zero. -/
theorem breaker_failure_paths_amended
    (simulate : String → ℚ → ℚ → String → Bool → Except String String)
    (now nowFail : ℚ) (t0 t1 : Int) (ts : String)
    (data : RequestData) (st : ProcState) (sid : String)
    (vr : VerificationResults) :
    (data.submissionId = none →
      (process_results simulate now nowFail t0 t1 ts data st).outcome
          = .error ("submissionId") ∧
      (process_results simulate now nowFail t0 t1 ts data st).state.breaker
          = handle_circuit_breaker_failure nowFail st.breaker) ∧
    (data.submissionId = some sid →
      data.verificationResults = none →
      (process_results simulate now nowFail t0 t1 ts data st).outcome
          = .error ("verificationResults") ∧
      (process_results simulate now nowFail t0 t1 ts data st).state.breaker
          = handle_circuit_breaker_failure nowFail st.breaker) ∧
    (∀ msg, data.submissionId = some sid →
      data.verificationResults = some vr →
      validate_verification_results vr = some msg →
      (process_results simulate now nowFail t0 t1 ts data st).outcome
          = .error msg ∧
      (process_results simulate now nowFail t0 t1 ts data st).state.breaker
          = handle_circuit_breaker_failure nowFail st.breaker) ∧
    (data.submissionId = some sid →
      data.verificationResults = some vr →
      validate_verification_results vr = none →
      st.results_cache ("results_" ++ sid) = none →
      (is_circuit_breaker_open now st.breaker).1 = true →
      (process_results simulate now nowFail t0 t1 ts data st).outcome
          = .error ("Smart contract integration temporarily unavailable") ∧
      (process_results simulate now nowFail t0 t1 ts data st).state.breaker
          = handle_circuit_breaker_failure nowFail st.breaker) ∧
    (∀ e, data.submissionId = some sid →
      data.verificationResults = some vr →
      validate_verification_results vr = none →
      st.results_cache ("results_" ++ sid) = none →
      (is_circuit_breaker_open now st.breaker).1 = false →
      process_verification_results simulate sid vr = .error e →
      (process_results simulate now nowFail t0 t1 ts data st).outcome
          = .error e ∧
      (process_results simulate now nowFail t0 t1 ts data st).state.breaker
          = handle_circuit_breaker_failure nowFail
              (is_circuit_breaker_open now st.breaker).2) ∧
    (∀ tx, data.submissionId = some sid →
      data.verificationResults = some vr →
      validate_verification_results vr = none →
      st.results_cache ("results_" ++ sid) = none →
      (is_circuit_breaker_open now st.breaker).1 = false →
      process_verification_results simulate sid vr = .ok tx →
      (process_results simulate now nowFail t0 t1 ts data
          st).state.breaker.circuit_breaker_failures = 0) := by
  refine ⟨?_, ?_, ?_, ?_, ?_, ?_⟩
  · intro hsid
    simp [process_results, hsid, proc_failure]
  · intro hsid hvr
    simp [process_results, hsid, hvr, proc_failure]
  · intro msg hsid hvr hval
    simp [process_results, hsid, hvr, hval, proc_failure]
  · intro hsid hvr hval hcache hopen
    have hst := is_open_true_state now st.breaker hopen
    simp [process_results, hsid, hvr, hval, hcache, hopen, hst, proc_failure]
  · intro e hsid hvr hval hcache hopen hds
    simp [process_results, hsid, hvr, hval, hcache, hopen, hds, proc_failure]
  · intro tx hsid hvr hval hcache hopen hds
    simp [process_results, hsid, hvr, hval, hcache, hopen, hds, record_success]

theorem breaker_failure_paths_amended_witness :
    ((process_results simOk 10 11 0 5 ("ts") dataNoSub
        stFresh).state.breaker
        = handle_circuit_breaker_failure 11 stFresh.breaker) ∧
    ((process_results simOk 10 11 0 5 ("ts") dataNoVr
        stFresh).state.breaker
        = handle_circuit_breaker_failure 11 stFresh.breaker) ∧
    ((process_results simOk 10 11 0 5 ("ts") dataBadScore
        stFresh).outcome
        = .error ("Quality score must be a number between 0 and 100")) ∧
    ((process_results simOk 10 11 0 5 ("ts") dataBadScore
        stFresh).state.breaker
        = handle_circuit_breaker_failure 11 stFresh.breaker) ∧
    ((process_results simOk 10 11 0 5 ("ts") dataGood
        stOpen).outcome
        = .error ("Smart contract integration temporarily unavailable")) ∧
    ((process_results simOk 10 11 0 5 ("ts") dataGood
        stOpen).state.breaker
        = handle_circuit_breaker_failure 11 stOpen.breaker) ∧
    ((process_results simBad 10 11 0 5 ("ts") dataGood
        stFresh).outcome
        = .error ("Results processing failed: chain down")) ∧
    ((process_results simBad 10 11 0 5 ("ts") dataGood
        stFresh).state.breaker
        = handle_circuit_breaker_failure 11
            (is_circuit_breaker_open 10 stFresh.breaker).2) ∧
    ((process_results simOk 10 11 0 5 ("ts") dataGood
        stFresh).state.breaker.circuit_breaker_failures = 0) := by
  have hp := (breaker_failure_paths_amended simOk 10 11 0 5 ("ts")
    dataNoSub stFresh ("sub1") vrGood).1 rfl
  have hq := (breaker_failure_paths_amended simOk 10 11 0 5 ("ts")
    dataNoVr stFresh ("sub1") vrGood).2.1 rfl rfl
  have ha := (breaker_failure_paths_amended simOk 10 11 0 5 ("ts")
    dataBadScore stFresh ("sub1") vrBadScore).2.2.1
    ("Quality score must be a number between 0 and 100") rfl rfl (by decide)
  have hb := (breaker_failure_paths_amended simOk 10 11 0 5 ("ts")
    dataGood stOpen ("sub1") vrGood).2.2.2.1 rfl rfl (by decide) rfl
    (by norm_num [is_circuit_breaker_open, stOpen])
  have hc := (breaker_failure_paths_amended simBad 10 11 0 5 ("ts")
    dataGood stFresh ("sub1") vrGood).2.2.2.2.1
    ("Results processing failed: chain down") rfl rfl (by decide) rfl
    (by decide) rfl
  have hd := (breaker_failure_paths_amended simOk 10 11 0 5 ("ts")
    dataGood stFresh ("sub1") vrGood).2.2.2.2.2 ("0xfeed") rfl rfl
    (by decide) rfl (by decide) rfl
  exact ⟨hp.2, hq.2, ha.1, ha.2, hb.1, hb.2, hc.1, hc.2, hd⟩

/-- C9: the check-then-increment of `rate_limiter` is not atomic. From a
state one admission below the per-minute limit (count 59 of 60), the
read-and-compare half of two concurrent requests both executed before
either write half (schedule: A-check, B-check, A-write, B-write) both
observe "under limit" and both proceed to their writes — while the same two
requests run sequentially admit the first and reject the second. After the
two stale writes the stored minute count is 60, although 61 requests have
then been admitted inside the window. -/
theorem rate_limiter_race_at_limit :
    (rl_check ("GEMINI") ("u") 0 ⟨60, 1000, 100⟩ st59
        = RLPhase.willWrite 60 60) ∧
    ((rate_limiter ("GEMINI") (some ("u")) ("/e") 0 st59).decision
        = RateDecision.admitted) ∧
    ((rate_limiter ("GEMINI") (some ("u")) ("/e") 0
        (rate_limiter ("GEMINI") (some ("u")) ("/e") 0 st59).state).decision
        = RateDecision.rejectMinute 60) ∧
    ((rl_write ("GEMINI") ("u") ("/e") 0 ⟨60, 1000, 100⟩ 60 60
        (rl_write ("GEMINI") ("u") ("/e") 0 ⟨60, 1000, 100⟩ 60 60
          st59)).cache (minuteKey ("u") ("GEMINI") 0)
        = some ⟨"u", "/e", 60, 0, 60⟩) := by
  exact ⟨rfl, rfl, rfl, rfl⟩

/-- C10 counterexample: a call whose submission id is in the results cache
but whose payload fails validation does not return the cached response —
validation runs before the cache lookup, so the call raises (and even
charges the circuit breaker). -/
theorem cached_bypass_counterexample :
    stCached.results_cache ("results_" ++ "sub1") = some crSub1 ∧
    (process_results simOk 10 11 0 5 ("ts") dataBadScore stCached).outcome
        = .error ("Quality score must be a number between 0 and 100") ∧
    (process_results simOk 10 11 0 5 ("ts") dataBadScore
        stCached).state.breaker.circuit_breaker_failures = 1 := by
  exact ⟨rfl, rfl, rfl⟩

/-- C10 (amended): every results-processing call that parses, passes
validation, and finds its submission id in the results cache returns the
cached response (`processed = true`, `cached = true`, the cached transaction
hash) with the state unchanged and no audit record — for every simulate
function and every breaker state (including an open breaker), so neither
the breaker nor the downstream call is consulted. -/
theorem cached_bypass_amended
    (simulate : String → ℚ → ℚ → String → Bool → Except String String)
    (now nowFail : ℚ) (t0 t1 : Int) (ts : String)
    (data : RequestData) (st : ProcState) (sid : String)
    (vr : VerificationResults) (cr : CachedResult)
    (hsid : data.submissionId = some sid)
    (hvr : data.verificationResults = some vr)
    (hval : validate_verification_results vr = none)
    (hcache : st.results_cache ("results_" ++ sid) = some cr) :
    process_results simulate now nowFail t0 t1 ts data st
      = ⟨.ok ⟨sid, true, cr.txHash, true, t1 - t0⟩, st, []⟩ := by
  simp [process_results, hsid, hvr, hval, hcache]

theorem cached_bypass_amended_witness :
    process_results simOk 10 11 0 5 ("ts") dataGood stOpenCached
      = ⟨.ok ⟨"sub1", true, some ("0xcafe"), true, 5⟩, stOpenCached, []⟩ := by
  rw [cached_bypass_amended simOk 10 11 0 5 ("ts") dataGood stOpenCached
    ("sub1") vrGood crSub1 rfl rfl (by decide) rfl]
  simp [crSub1]

end DelangZeta
